import Mathlib

/-!
Shallow embedding of the mongo facade package (src/lib.go).

The package is a thin wrapper over the external mgo driver. The embedding
models the handle state (the DB struct), the connection lifecycle, and every
CRUD/query/index operation as a pure function of the handle state and of the
outcome that the external driver would produce for the request being issued.
Driver outcomes are parameters because the driver is an external dependency:
each Lean operation takes the outcome of its single driver request as an
extra argument and records the request it issues in a trace, so that the
theorems can talk about which requests are issued (and with which max-time
bound) and which are not.

Go methods on DB never assign to the handle fields except Connect,
ConnectWithTimeout and SetMaxTimeMS; the operations are therefore embedded as
functions that return the handle unchanged in the result record.
-/

namespace Mongo

/-- Session models an mgo.Session object (the pointee of a non-nil session
pointer). The driver internals are abstracted; the only observable state the
facade code interacts with is whether Close has been called on it. -/
structure Session where
  closed : Bool
deriving DecidableEq, Repr

/-- EngineError is an abstract token for an error value produced by the
external driver, other than the distinguished mgo.ErrNotFound value, which is
modelled separately where the code compares against it. -/
abbrev EngineError := Nat

/-- DB embeds the Go struct DB: a possibly-nil session pointer and the
maxTimeMS duration (time.Duration, an integer nanosecond count). The RWMutex
field only guards maxTimeMS and has no sequential behaviour. -/
structure DB where
  sess : Option Session
  maxTimeMS : Int
deriving DecidableEq, Repr

/-- Errors returned by the facade: the two fmt.Errorf constants of the
package, plus pass-through driver errors. -/
inductive DBError where
  | notConnected
  | notValid
  | engineErr (e : EngineError)
deriving DecidableEq, Repr

/-- Val models a generic Go value handed to the driver (interface\x7b\x7d or a
bson document): an opaque atom, or a bson.M-style object given as a field
list. -/
inductive Val where
  | atom (n : Nat)
  | obj (fields : List (String × Val))

/-- FetchMode distinguishes the driver query terminators One and All. -/
inductive FetchMode where
  | one
  | all
deriving DecidableEq, Repr

/-- Request records one driver request issued by the facade, including the
max-time bound applied to it (none when no SetMaxTime call is chained, some d
when SetMaxTime d is chained before the terminator). -/
inductive Request where
  | ensureIndexKey (coll : String) (keys : List String)
  | insert (coll : String) (docs : List Val)
  | bulkInsert (coll : String) (docs : List Val)
  | find (coll : String) (filter : Val) (sort : Option String)
      (limit : Option Int) (skip : Option Int) (maxTime : Option Int)
      (mode : FetchMode)
  | findId (coll : String) (id : String) (maxTime : Option Int)
  | count (coll : String) (filter : Val) (maxTime : Option Int)
  | pipe (coll : String) (stages : List Val) (allowDiskUse : Bool)
      (maxTime : Option Int) (mode : FetchMode)
  | update (coll : String) (selector : Val) (change : Val)
  | updateAll (coll : String) (selector : Val) (change : Val)
  | upsert (coll : String) (selector : Val) (change : Val)
  | removeAll (coll : String) (selector : Val)

/-- OpOut is the outcome of one facade operation: the handle after the call
(the Go methods never mutate it), the returned value, and the trace of driver
requests issued during the call (empty means no network I/O was attempted). -/
structure OpOut (α : Type) where
  db : DB
  res : α
  trace : List Request

/-- GoResult wraps an operation result that may instead be a Go runtime
panic (for the one operation that can dereference a nil session pointer). -/
inductive GoResult (α : Type) where
  | panics
  | ok (val : α)

/-- One second, as a time.Duration nanosecond count. -/
def timeSecond : Int := 1000000000

/-- The defaultConTimeout constant: 15 * time.Second. -/
def defaultConTimeout : Int := 15 * timeSecond

/-- The defaultMaxTimeMS constant: 30 * time.Second. -/
def defaultMaxTimeMS : Int := 30 * timeSecond

/-- IsConnected embeds DB.IsConnected: true iff the session pointer is
non-nil. -/
def DB.IsConnected (db : DB) : Bool :=
  db.sess.isSome

/-- ConnOut is the outcome of a dial operation: the updated handle, the
returned error, and the address and timeout value passed to
mgo.DialWithTimeout. -/
structure ConnOut where
  db : DB
  err : Option DBError
  dialAddr : String
  dialTimeout : Int
deriving DecidableEq, Repr

/-- Connect embeds DB.Connect: it dials with the fixed default timeout and
stores the dial result into the sess field. The dial outcome is a parameter:
ok s means mgo.DialWithTimeout returned a fresh session s with a nil error,
error e means it returned a nil session and the error e. Either way the
result is assigned to db.sess. -/
def DB.Connect (db : DB) (dsn : String)
    (dial : Except EngineError Session) : ConnOut :=
  match dial with
  | .ok s => ⟨{ db with sess := some s }, none, dsn, defaultConTimeout⟩
  | .error e =>
      ⟨{ db with sess := none }, some (.engineErr e), dsn, defaultConTimeout⟩

/-- ConnectWithTimeout embeds DB.ConnectWithTimeout: a timeout below one
second is replaced by the default timeout before dialing; otherwise identical
to Connect. -/
def DB.ConnectWithTimeout (db : DB) (dsn : String) (timeout : Int)
    (dial : Except EngineError Session) : ConnOut :=
  let t := if timeout < timeSecond then defaultConTimeout else timeout
  match dial with
  | .ok s => ⟨{ db with sess := some s }, none, dsn, t⟩
  | .error e => ⟨{ db with sess := none }, some (.engineErr e), dsn, t⟩

/-- SetMaxTimeMS embeds DB.SetMaxTimeMS: it stores the new duration (the
RWMutex around the store has no sequential effect). -/
def DB.SetMaxTimeMS (db : DB) (d : Int) : DB :=
  { db with maxTimeMS := d }

/-- Disconnect embeds DB.Disconnect: when connected it calls Close on the
owned session, which mutates the pointee; the sess pointer itself is never
assigned, so the handle keeps pointing at the now-closed session. When not
connected it does nothing. The method returns no error by its signature. -/
def DB.Disconnect (db : DB) : DB :=
  if db.IsConnected then
    { db with sess := db.sess.map (fun s => { s with closed := true }) }
  else db

/-- NewConnection embeds the package constructor NewConnection: a handle with
the default max-time budget, immediately dialed via Connect. -/
def NewConnection (dsn : String) (dial : Except EngineError Session) :
    DB × Option DBError :=
  let db : DB := ⟨none, defaultMaxTimeMS⟩
  let c := db.Connect dsn dial
  (c.db, c.err)

/-- NewConnectionWithTimeout embeds the package constructor
NewConnectionWithTimeout. -/
def NewConnectionWithTimeout (dsn : String) (timeout : Int)
    (dial : Except EngineError Session) : DB × Option DBError :=
  let db : DB := ⟨none, defaultMaxTimeMS⟩
  let c := db.ConnectWithTimeout dsn timeout dial
  (c.db, c.err)

/-- GetDb embeds the package constructor GetDb: the zero value of the DB
struct, in particular a zero maxTimeMS. -/
def GetDb : DB := ⟨none, 0⟩

/-- CreateIndexKey embeds DB.CreateIndexKey: one EnsureIndexKey request with
all the keys; out is the driver outcome for that request. -/
def DB.CreateIndexKey (db : DB) (coll : String) (keys : List String)
    (out : Option EngineError) : OpOut (Option DBError) :=
  if !db.IsConnected then ⟨db, some .notConnected, []⟩
  else ⟨db, out.map .engineErr, [.ensureIndexKey coll keys]⟩

/-- Loop body of DB.CreateIndexKeys: one EnsureIndexKey request per key, in
order, stopping at (and returning) the first failing request. The outs
function gives the driver outcome of the i-th request issued. -/
def createIndexKeysLoop (coll : String) (outs : Nat → Option EngineError) :
    List String → Nat → Option DBError × List Request
  | [], _ => (none, [])
  | key :: rest, i =>
    match outs i with
    | some e => (some (.engineErr e), [.ensureIndexKey coll [key]])
    | none =>
      let r := createIndexKeysLoop coll outs rest (i + 1)
      (r.1, .ensureIndexKey coll [key] :: r.2)

/-- CreateIndexKeys embeds DB.CreateIndexKeys. -/
def DB.CreateIndexKeys (db : DB) (coll : String) (keys : List String)
    (outs : Nat → Option EngineError) : OpOut (Option DBError) :=
  if !db.IsConnected then ⟨db, some .notConnected, []⟩
  else
    let r := createIndexKeysLoop coll outs keys 0
    ⟨db, r.1, r.2⟩

/-- Insert embeds DB.Insert: a single insert request with all documents. -/
def DB.Insert (db : DB) (coll : String) (v : List Val)
    (out : Option EngineError) : OpOut (Option DBError) :=
  if !db.IsConnected then ⟨db, some .notConnected, []⟩
  else ⟨db, out.map .engineErr, [.insert coll v]⟩

/-- InsertBulk embeds DB.InsertBulk: one unordered bulk run whose error is
returned. -/
def DB.InsertBulk (db : DB) (coll : String) (v : List Val)
    (out : Option EngineError) : OpOut (Option DBError) :=
  if !db.IsConnected then ⟨db, some .notConnected, []⟩
  else ⟨db, out.map .engineErr, [.bulkInsert coll v]⟩

/-- InsertSess embeds DB.InsertSess: the caller supplies the working session;
the guard rejects both an unconnected handle and a nil session argument with
the not-connected error. -/
def DB.InsertSess (db : DB) (coll : String) (sessArg : Option Session)
    (v : List Val) (out : Option EngineError) : OpOut (Option DBError) :=
  if !db.IsConnected || sessArg.isNone then ⟨db, some .notConnected, []⟩
  else ⟨db, out.map .engineErr, [.insert coll v]⟩

/-- Assignment bsonQuery[k] = qv on the bson.M map modelled as a field
list: replace the binding when the key is present, append it otherwise. -/
def mapInsert (m : List (String × Val)) (k : String) (v : Val) :
    List (String × Val) :=
  if m.any (fun p => p.1 = k) then
    m.map (fun p => if p.1 = k then (k, v) else p)
  else m ++ [(k, v)]

/-- Copy loop of DB.Find: for k, qv := range query, bsonQuery[k] = qv,
starting from the empty bson.M. -/
def mapCopy (query : List (String × Val)) : List (String × Val) :=
  query.foldl (fun acc p => mapInsert acc p.1 p.2) []

/-- Find embeds DB.Find: the caller map is copied into a fresh bson.M which
is sent as the filter of one max-time-bounded All fetch. -/
def DB.Find (db : DB) (coll : String) (query : List (String × Val))
    (out : Option EngineError) : OpOut (Option DBError) :=
  if !db.IsConnected then ⟨db, some .notConnected, []⟩
  else
    let bsonQuery := mapCopy query
    ⟨db, out.map .engineErr,
      [.find coll (.obj bsonQuery) none none none (some db.maxTimeMS) .all]⟩

/-- Pipe embeds DB.Pipe: one aggregation request with disk use allowed and
the max-time bound, fetching all results. -/
def DB.Pipe (db : DB) (coll : String) (query : List Val)
    (out : Option EngineError) : OpOut (Option DBError) :=
  if !db.IsConnected then ⟨db, some .notConnected, []⟩
  else ⟨db, out.map .engineErr,
    [.pipe coll query true (some db.maxTimeMS) .all]⟩

/-- PipeOne embeds DB.PipeOne: as Pipe but fetching one result. -/
def DB.PipeOne (db : DB) (coll : String) (query : List Val)
    (out : Option EngineError) : OpOut (Option DBError) :=
  if !db.IsConnected then ⟨db, some .notConnected, []⟩
  else ⟨db, out.map .engineErr,
    [.pipe coll query true (some db.maxTimeMS) .one]⟩

/-- FindOneOutcome is the driver outcome of a One fetch: a nil error
(found), the distinguished mgo.ErrNotFound value, or any other error. -/
inductive FindOneOutcome where
  | found
  | notFound
  | engineFailure (e : EngineError)
deriving DecidableEq, Repr

/-- FindByID embeds DB.FindByID: false when unconnected, otherwise the
boolean mgo.ErrNotFound != (result of the One fetch), which is false exactly
when the driver reported not-found and true both on success and on any other
driver error. -/
def DB.FindByID (db : DB) (coll : String) (id : String)
    (out : FindOneOutcome) : OpOut Bool :=
  if !db.IsConnected then ⟨db, false, []⟩
  else
    ⟨db, (match out with | .notFound => false | _ => true),
      [.findId coll id (some db.maxTimeMS)]⟩

/-- FindAll embeds DB.FindAll: one All fetch with the literal empty bson.M
filter and the max-time bound. -/
def DB.FindAll (db : DB) (coll : String) (out : Option EngineError) :
    OpOut (Option DBError) :=
  if !db.IsConnected then ⟨db, some .notConnected, []⟩
  else ⟨db, out.map .engineErr,
    [.find coll (.obj []) none none none (some db.maxTimeMS) .all]⟩

/-- FindWithQuery embeds DB.FindWithQuery: a One fetch of the caller filter
with the max-time bound. -/
def DB.FindWithQuery (db : DB) (coll : String) (query : Val)
    (out : Option EngineError) : OpOut (Option DBError) :=
  if !db.IsConnected then ⟨db, some .notConnected, []⟩
  else ⟨db, out.map .engineErr,
    [.find coll query none none none (some db.maxTimeMS) .one]⟩

/-- FindWithQuerySortOne embeds DB.FindWithQuerySortOne. -/
def DB.FindWithQuerySortOne (db : DB) (coll : String) (query : Val)
    (order : String) (out : Option EngineError) : OpOut (Option DBError) :=
  if !db.IsConnected then ⟨db, some .notConnected, []⟩
  else ⟨db, out.map .engineErr,
    [.find coll query (some order) none none (some db.maxTimeMS) .one]⟩

/-- FindWithQuerySortAll embeds DB.FindWithQuerySortAll. -/
def DB.FindWithQuerySortAll (db : DB) (coll : String) (query : Val)
    (order : String) (out : Option EngineError) : OpOut (Option DBError) :=
  if !db.IsConnected then ⟨db, some .notConnected, []⟩
  else ⟨db, out.map .engineErr,
    [.find coll query (some order) none none (some db.maxTimeMS) .all]⟩

/-- FindWithQuerySortLimitAll embeds DB.FindWithQuerySortLimitAll. -/
def DB.FindWithQuerySortLimitAll (db : DB) (coll : String) (query : Val)
    (order : String) (limit : Int) (out : Option EngineError) :
    OpOut (Option DBError) :=
  if !db.IsConnected then ⟨db, some .notConnected, []⟩
  else ⟨db, out.map .engineErr,
    [.find coll query (some order) (some limit) none (some db.maxTimeMS) .all]⟩

/-- FindWithQueryOne embeds DB.FindWithQueryOne (same body as
FindWithQuery). -/
def DB.FindWithQueryOne (db : DB) (coll : String) (query : Val)
    (out : Option EngineError) : OpOut (Option DBError) :=
  if !db.IsConnected then ⟨db, some .notConnected, []⟩
  else ⟨db, out.map .engineErr,
    [.find coll query none none none (some db.maxTimeMS) .one]⟩

/-- FindWithQueryAll embeds DB.FindWithQueryAll. -/
def DB.FindWithQueryAll (db : DB) (coll : String) (query : Val)
    (out : Option EngineError) : OpOut (Option DBError) :=
  if !db.IsConnected then ⟨db, some .notConnected, []⟩
  else ⟨db, out.map .engineErr,
    [.find coll query none none none (some db.maxTimeMS) .all]⟩

/-- FindWithQuerySortLimitOffsetAll embeds
DB.FindWithQuerySortLimitOffsetAll. -/
def DB.FindWithQuerySortLimitOffsetAll (db : DB) (coll : String) (query : Val)
    (sort : String) (limit offset : Int) (out : Option EngineError) :
    OpOut (Option DBError) :=
  if !db.IsConnected then ⟨db, some .notConnected, []⟩
  else ⟨db, out.map .engineErr,
    [.find coll query (some sort) (some limit) (some offset)
      (some db.maxTimeMS) .all]⟩

/-- FindWithQuerySortLimitOffsetTotalAll embeds
DB.FindWithQuerySortLimitOffsetTotalAll. The total pointer is modelled as an
Option Int (none is a nil pointer, some t a pointer to the value t) and the
result carries the final pointee value. When the pointer is non-nil the
method first issues a count of the filter with SetMaxTime(db.maxTimeMS)
chained, assigns whatever count the driver returned to the pointee and
discards the count error; it then issues the bounded fetch and returns its
error. countOut is the (count, error) pair from the count request; findOut
is the fetch outcome. -/
def DB.FindWithQuerySortLimitOffsetTotalAll (db : DB) (coll : String)
    (query : Val) (sort : String) (limit offset : Int) (total : Option Int)
    (countOut : Int × Option EngineError) (findOut : Option EngineError) :
    OpOut (Option DBError × Option Int) :=
  if !db.IsConnected then ⟨db, (some .notConnected, total), []⟩
  else
    match total with
    | some _ =>
      ⟨db, (findOut.map .engineErr, some countOut.1),
        [.count coll query (some db.maxTimeMS),
         .find coll query (some sort) (some limit) (some offset)
           (some db.maxTimeMS) .all]⟩
    | none =>
      ⟨db, (findOut.map .engineErr, none),
        [.find coll query (some sort) (some limit) (some offset)
          (some db.maxTimeMS) .all]⟩

/-- Count embeds DB.Count: the (count, error) pair of one max-time-bounded
count request, or (0, not-connected) when unconnected. -/
def DB.Count (db : DB) (coll : String) (query : Val)
    (out : Int × Option EngineError) : OpOut (Int × Option DBError) :=
  if !db.IsConnected then ⟨db, (0, some .notConnected), []⟩
  else ⟨db, (out.1, out.2.map .engineErr), [.count coll query (some db.maxTimeMS)]⟩

/-- Update embeds DB.Update: one update request selecting on the _id field
with a dollar-set change document. -/
def DB.Update (db : DB) (coll : String) (id : Val) (v : Val)
    (out : Option EngineError) : OpOut (Option DBError) :=
  if !db.IsConnected then ⟨db, some .notConnected, []⟩
  else ⟨db, out.map .engineErr,
    [.update coll (.obj [("_id", id)]) (.obj [("$set", v)])]⟩

/-- UpdateWithQuery embeds DB.UpdateWithQuery: one update request passing
the caller selector and change documents through unchanged. -/
def DB.UpdateWithQuery (db : DB) (coll : String) (query : Val) (set : Val)
    (out : Option EngineError) : OpOut (Option DBError) :=
  if !db.IsConnected then ⟨db, some .notConnected, []⟩
  else ⟨db, out.map .engineErr, [.update coll query set]⟩

/-- UpdateWithQueryAll embeds DB.UpdateWithQueryAll: one UpdateAll request
whose change info is discarded and whose error is returned. -/
def DB.UpdateWithQueryAll (db : DB) (coll : String) (query : Val) (set : Val)
    (out : Option EngineError) : OpOut (Option DBError) :=
  if !db.IsConnected then ⟨db, some .notConnected, []⟩
  else ⟨db, out.map .engineErr, [.updateAll coll query set]⟩

/-- Upsert embeds DB.Upsert: one upsert request keyed on the _id field. -/
def DB.Upsert (db : DB) (coll : String) (id : Val) (v : Val)
    (out : Option EngineError) : OpOut (Option DBError) :=
  if !db.IsConnected then ⟨db, some .notConnected, []⟩
  else ⟨db, out.map .engineErr, [.upsert coll (.obj [("_id", id)]) v]⟩

/-- UpsertWithQuery embeds DB.UpsertWithQuery. -/
def DB.UpsertWithQuery (db : DB) (coll : String) (query : Val) (set : Val)
    (out : Option EngineError) : OpOut (Option DBError) :=
  if !db.IsConnected then ⟨db, some .notConnected, []⟩
  else ⟨db, out.map .engineErr, [.upsert coll query set]⟩

/-- Loop of DB.UpsertMulti: for index < len(id), issue the upsert of the
pair at index (whose driver outcome, given by outs, the code discards) and
increment index. The list elements are read by position exactly as the Go
loop indexes the slices; the guard before the loop guarantees the index is
in range for both. -/
def upsertMultiLoop (coll : String) (id v : List Val) (index : Nat) :
    List Request :=
  if _h : index < id.length then
    Request.upsert coll (.obj [("_id", id.getD index (.obj []))])
        (v.getD index (.obj [])) :: upsertMultiLoop coll id v (index + 1)
  else []
termination_by id.length - index

/-- UpsertMulti embeds DB.UpsertMulti: a validation error when the two
slices differ in length (before any request is issued); otherwise one upsert
per pair in index order whose individual outcomes (outs) are all discarded,
and a nil returned error. -/
def DB.UpsertMulti (db : DB) (coll : String) (id v : List Val)
    (outs : Nat → Option EngineError) : OpOut (Option DBError) :=
  if !db.IsConnected then ⟨db, some .notConnected, []⟩
  else if id.length ≠ v.length then ⟨db, some .notValid, []⟩
  else
    let _ := outs
    ⟨db, none, upsertMultiLoop coll id v 0⟩

/-- Remove embeds DB.Remove: one RemoveAll request selecting on the _id
field; the change info is discarded and the error returned. -/
def DB.Remove (db : DB) (coll : String) (id : Val)
    (out : Option EngineError) : OpOut (Option DBError) :=
  if !db.IsConnected then ⟨db, some .notConnected, []⟩
  else ⟨db, out.map .engineErr, [.removeAll coll (.obj [("_id", id)])]⟩

/-- RemoveAll embeds DB.RemoveAll. The body has no connectivity guard: it
immediately evaluates db.sess.Copy(). When the handle owns no session that
is a method call on a nil mgo.Session pointer, whose receiver dereference is
a Go runtime panic, modelled as GoResult.panics; no value (and in particular
no not-connected error) is returned on that path. When a session is owned,
one RemoveAll request with the empty selector is issued. -/
def DB.RemoveAll (db : DB) (coll : String) (out : Option EngineError) :
    GoResult (OpOut (Option DBError)) :=
  match db.sess with
  | none => .panics
  | some _ => .ok ⟨db, out.map .engineErr, [.removeAll coll (.obj [])]⟩

/-- RemoveWithQuery embeds DB.RemoveWithQuery. -/
def DB.RemoveWithQuery (db : DB) (coll : String) (query : Val)
    (out : Option EngineError) : OpOut (Option DBError) :=
  if !db.IsConnected then ⟨db, some .notConnected, []⟩
  else ⟨db, out.map .engineErr, [.removeAll coll query]⟩

/-- RemoveWithIDs embeds DB.RemoveWithIDs: one RemoveAll request whose
selector matches _id against a dollar-in list of the given identifiers. -/
def DB.RemoveWithIDs (db : DB) (coll : String) (ids : Val)
    (out : Option EngineError) : OpOut (Option DBError) :=
  if !db.IsConnected then ⟨db, some .notConnected, []⟩
  else ⟨db, out.map .engineErr,
    [.removeAll coll (.obj [("_id", .obj [("$in", ids)])])]⟩

/-- C1 counterexample: a handle that connects successfully and then calls
Disconnect still reports IsConnected = true, because Disconnect closes the
owned session without clearing the sess pointer; the claim says IsConnected
returns false again after Disconnect. -/
theorem disconnect_keeps_connected_cex :
    ((((GetDb).Connect "mongodb://example" (.ok ⟨false⟩)).db.Disconnect).IsConnected
      = true)
    ∧ ¬ ((((GetDb).Connect "mongodb://example" (.ok ⟨false⟩)).db.Disconnect).IsConnected
      = false) :=
  ⟨rfl, by decide⟩

/-- C1 (amended): after a successful Connect, IsConnected returns true;
Disconnect closes the owned session but never clears the session pointer, so
IsConnected is unchanged by Disconnect (in particular it stays true after
disconnecting a connected handle); Disconnect on a never-connected handle is
a no-op; and a second Disconnect changes nothing further and cannot error
(the method returns nothing). -/
theorem connection_lifecycle_amended (db : DB) (dsn : String) (s : Session)
    (mt : Int) :
    ((db.Connect dsn (.ok s)).db).IsConnected = true
    ∧ (db.Disconnect).IsConnected = db.IsConnected
    ∧ (DB.mk none mt).Disconnect = DB.mk none mt
    ∧ db.Disconnect.Disconnect = db.Disconnect := by
  obtain ⟨sess0, mt0⟩ := db
  refine ⟨rfl, ?_, rfl, ?_⟩
  · cases sess0 <;> rfl
  · cases sess0 with
    | none => rfl
    | some s0 => obtain ⟨c⟩ := s0; rfl

/-- C2 counterexample: on a connected handle, a lookup that fails with a
driver error other than not-found makes FindByID return true, not false as
the claim states: the code returns the boolean mgo.ErrNotFound != err, which
holds for every error value other than ErrNotFound. -/
theorem findByID_other_error_cex :
    (((DB.mk (some ⟨false⟩) defaultMaxTimeMS).FindByID "users" "k1"
        (.engineFailure 7)).res = true)
    ∧ ¬ (((DB.mk (some ⟨false⟩) defaultMaxTimeMS).FindByID "users" "k1"
        (.engineFailure 7)).res = false) :=
  ⟨rfl, by decide⟩

/-- C2 (amended): on a connected handle FindByID returns false exactly when
the lookup reports not-found; it returns true both when the document is
found and when the lookup fails with any other error (such errors are
conflated with presence, not with absence). On an unconnected handle it
returns false without issuing any request. -/
theorem findByID_boolean_semantics (s : Session) (mt : Int) (coll id : String)
    (e : EngineError) (o : FindOneOutcome) :
    ((DB.mk (some s) mt).FindByID coll id .found).res = true
    ∧ ((DB.mk (some s) mt).FindByID coll id .notFound).res = false
    ∧ ((DB.mk (some s) mt).FindByID coll id (.engineFailure e)).res = true
    ∧ ((DB.mk (some s) mt).FindByID coll id o).trace
        = [Request.findId coll id (some mt)]
    ∧ ((DB.mk none mt).FindByID coll id o).res = false
    ∧ ((DB.mk none mt).FindByID coll id o).trace = [] :=
  ⟨rfl, rfl, rfl, rfl, rfl, rfl⟩

/-- C4: RemoveAll has no connectivity guard. On a handle with no owned
session the body immediately evaluates db.sess.Copy(), a method call whose
receiver dereference is a nil-pointer runtime panic, so no value at all (in
particular no not-connected error) is returned: the operation is not total
on unconnected handles. On a connected handle it issues the delete-everything
request with no prior check. -/
theorem removeAll_skips_connectivity_check (mt : Int) (coll : String)
    (out : Option EngineError) (s : Session) :
    (DB.mk none mt).RemoveAll coll out = .panics
    ∧ (DB.mk (some s) mt).RemoveAll coll out
        = .ok ⟨DB.mk (some s) mt, out.map .engineErr,
            [Request.removeAll coll (.obj [])]⟩ :=
  ⟨rfl, rfl⟩

/-- C6 counterexample: InsertSess invoked on a handle with no owned session
(and a perfectly good caller-supplied session) does return the not-connected
error and issues nothing, contrary to the claim that this path skips the
not-connected check. -/
theorem insertSess_unconnected_error_cex :
    (((DB.mk none 0).InsertSess "docs" (some ⟨false⟩) [.atom 1] none).res
      = some DBError.notConnected)
    ∧ ((DB.mk none 0).InsertSess "docs" (some ⟨false⟩) [.atom 1] none).trace
      = [] :=
  ⟨rfl, rfl⟩

/-- C6 (amended): InsertSess does perform the not-connected check, combined
with a nil test on the caller-supplied session: on a handle with no owned
session, or with a nil session argument, it returns the not-connected error
without issuing any request. -/
theorem insertSess_checks_connection (mt : Int) (coll : String)
    (sessArg : Option Session) (docs : List Val) (out : Option EngineError)
    (s : Session) :
    (DB.mk none mt).InsertSess coll sessArg docs out
        = ⟨DB.mk none mt, some .notConnected, []⟩
    ∧ (DB.mk (some s) mt).InsertSess coll none docs out
        = ⟨DB.mk (some s) mt, some .notConnected, []⟩ :=
  ⟨rfl, rfl⟩

/-- C8: ConnectWithTimeout dials with the caller-supplied timeout when it is
at least one second and silently substitutes the fixed default timeout when
it is below one second; apart from the timeout value passed to the dial, its
outcome (stored session, returned error, dialed address) is identical to
Connect with the same dial outcome. -/
theorem connectWithTimeout_timeout_substitution (db : DB) (dsn : String)
    (timeout : Int) (dial : Except EngineError Session) :
    (db.ConnectWithTimeout dsn timeout dial).dialTimeout
        = (if timeout < timeSecond then defaultConTimeout else timeout)
    ∧ (db.ConnectWithTimeout dsn timeout dial).db = (db.Connect dsn dial).db
    ∧ (db.ConnectWithTimeout dsn timeout dial).err = (db.Connect dsn dial).err
    ∧ (db.ConnectWithTimeout dsn timeout dial).dialAddr
        = (db.Connect dsn dial).dialAddr := by
  cases dial <;> exact ⟨rfl, rfl, rfl, rfl⟩

/-- C9: FindAll coincides with Find on the empty filter mapping: the copy of
the empty caller map is the empty bson.M, so both issue the same
max-time-bounded All fetch with the empty native filter and return the same
result; on a connected handle that single request is listed explicitly. -/
theorem findAll_equiv_find_empty (db : DB) (coll : String)
    (out : Option EngineError) (s : Session) (mt : Int) :
    db.Find coll [] out = db.FindAll coll out
    ∧ ((DB.mk (some s) mt).FindAll coll out).trace
        = [Request.find coll (.obj []) none none none (some mt) .all] := by
  obtain ⟨sess0, mt0⟩ := db
  refine ⟨?_, rfl⟩
  cases sess0 <;> rfl

/-- C5 counterexample: on a connected handle with the default budget and a
non-nil total pointer, the first request issued is a count carrying the
max-time bound some defaultMaxTimeMS — the code chains SetMaxTime onto the
count too — while the claim says the count is issued with no max-time
budget (which would be the bound none). -/
theorem totalAll_count_bounded_cex :
    ((DB.mk (some ⟨false⟩) defaultMaxTimeMS).FindWithQuerySortLimitOffsetTotalAll
        "docs" (.obj []) "name" 10 0 (some 0) (3, some 7) none).trace
      = [Request.count "docs" (.obj []) (some defaultMaxTimeMS),
         Request.find "docs" (.obj []) (some "name") (some 10) (some 0)
           (some defaultMaxTimeMS) .all]
    ∧ (some defaultMaxTimeMS : Option Int) ≠ none :=
  ⟨rfl, by decide⟩

/-- C5 (amended): on a connected handle,
FindWithQuerySortLimitOffsetTotalAll with a non-nil total pointer first
issues a separate count query to which the same max-time budget is applied,
stores whatever count the driver returned and silently discards the count
error (the returned error depends only on the fetch outcome), then performs
the max-time-bounded fetch; with a nil total pointer no count query is
issued. -/
theorem totalAll_bounded_count_semantics (s : Session) (mt : Int)
    (coll : String) (query : Val) (sort : String) (limit offset t0 : Int)
    (countOut : Int × Option EngineError) (findOut : Option EngineError) :
    (DB.mk (some s) mt).FindWithQuerySortLimitOffsetTotalAll coll query sort
        limit offset (some t0) countOut findOut
      = ⟨DB.mk (some s) mt, (findOut.map .engineErr, some countOut.1),
          [Request.count coll query (some mt),
           Request.find coll query (some sort) (some limit) (some offset)
             (some mt) .all]⟩
    ∧ (DB.mk (some s) mt).FindWithQuerySortLimitOffsetTotalAll coll query sort
        limit offset none countOut findOut
      = ⟨DB.mk (some s) mt, (findOut.map .engineErr, none),
          [Request.find coll query (some sort) (some limit) (some offset)
            (some mt) .all]⟩ :=
  ⟨rfl, rfl⟩

/-- Helper for C7: from any start index, the UpsertMulti loop issues exactly
the per-pair upserts of the zipped index-k suffixes, provided the two lists
have equal length (which the validation guard established before the loop
runs). -/
theorem upsertMultiLoop_eq_zip (coll : String) (id v : List Val)
    (hlen : id.length = v.length) :
    ∀ (n k : Nat), id.length - k = n →
      upsertMultiLoop coll id v k
        = ((id.drop k).zip (v.drop k)).map
            (fun p => Request.upsert coll (.obj [("_id", p.1)]) p.2) := by
  intro n
  induction n with
  | zero =>
    intro k hk
    have hge : id.length ≤ k := by omega
    rw [upsertMultiLoop, dif_neg (by omega)]
    rw [List.drop_eq_nil_of_le hge]
    simp
  | succ m ih =>
    intro k hk
    have hklt : k < id.length := by omega
    have hkv : k < v.length := by omega
    rw [upsertMultiLoop, dif_pos hklt, ih (k + 1) (by omega)]
    rw [List.drop_eq_getElem_cons hklt, List.drop_eq_getElem_cons hkv,
      List.zip_cons_cons, List.map_cons]
    simp only [List.getD_eq_getElem?_getD, List.getElem?_eq_getElem hklt,
      List.getElem?_eq_getElem hkv, Option.getD_some]

/-- C7: on a connected handle, UpsertMulti given identifier and document
lists of unequal length returns the validation error having issued no
request; given lists of equal length it issues exactly one upsert per pair,
sequentially in index order, its result is independent of the individual
upsert outcomes (they are discarded), and the returned error is nil. -/
theorem upsertMulti_validation_and_order (s : Session) (mt : Int)
    (coll : String) (id v : List Val) (outs : Nat → Option EngineError) :
    (DB.mk (some s) mt).UpsertMulti coll id v outs
      = if id.length ≠ v.length then ⟨DB.mk (some s) mt, some .notValid, []⟩
        else ⟨DB.mk (some s) mt, none,
          (id.zip v).map
            (fun p => Request.upsert coll (.obj [("_id", p.1)]) p.2)⟩ := by
  have hdef : (DB.mk (some s) mt).UpsertMulti coll id v outs
      = if id.length ≠ v.length then ⟨DB.mk (some s) mt, some .notValid, []⟩
        else ⟨DB.mk (some s) mt, none, upsertMultiLoop coll id v 0⟩ := rfl
  rw [hdef]
  by_cases h : id.length = v.length
  · rw [if_neg (fun hc => hc h), if_neg (fun hc => hc h)]
    have hz := upsertMultiLoop_eq_zip coll id v h (id.length - 0) 0 rfl
    simp only [List.drop_zero] at hz
    rw [hz]
  · rw [if_pos h, if_pos h]

/-- C3: on a handle with no owned session, every CRUD/query/index operation
except RemoveAll fails immediately with no driver request issued (empty
trace, hence no network I/O) and the handle unchanged: every
error-returning operation returns the not-connected error, and FindByID —
whose only result channel is its boolean — returns false. The single
equation per operation covers its result, the unchanged handle and the
empty trace at once. -/
theorem unconnected_ops_fail_fast (mt : Int) (coll : String)
    (keys : List String) (outsI : Nat → Option EngineError) (docs : List Val)
    (outE : Option EngineError) (sessArg : Option Session)
    (q : List (String × Val)) (qv : Val) (stages : List Val) (idS : String)
    (fOut : FindOneOutcome) (order : String) (limit offset : Int)
    (total : Option Int) (countOut : Int × Option EngineError)
    (idV setV : Val) (ids vs : List Val) (outsU : Nat → Option EngineError)
    (idsV : Val) :
    (DB.mk none mt).CreateIndexKey coll keys outE
        = ⟨DB.mk none mt, some .notConnected, []⟩
    ∧ (DB.mk none mt).CreateIndexKeys coll keys outsI
        = ⟨DB.mk none mt, some .notConnected, []⟩
    ∧ (DB.mk none mt).Insert coll docs outE
        = ⟨DB.mk none mt, some .notConnected, []⟩
    ∧ (DB.mk none mt).InsertBulk coll docs outE
        = ⟨DB.mk none mt, some .notConnected, []⟩
    ∧ (DB.mk none mt).InsertSess coll sessArg docs outE
        = ⟨DB.mk none mt, some .notConnected, []⟩
    ∧ (DB.mk none mt).Find coll q outE
        = ⟨DB.mk none mt, some .notConnected, []⟩
    ∧ (DB.mk none mt).Pipe coll stages outE
        = ⟨DB.mk none mt, some .notConnected, []⟩
    ∧ (DB.mk none mt).PipeOne coll stages outE
        = ⟨DB.mk none mt, some .notConnected, []⟩
    ∧ (DB.mk none mt).FindByID coll idS fOut = ⟨DB.mk none mt, false, []⟩
    ∧ (DB.mk none mt).FindAll coll outE
        = ⟨DB.mk none mt, some .notConnected, []⟩
    ∧ (DB.mk none mt).FindWithQuery coll qv outE
        = ⟨DB.mk none mt, some .notConnected, []⟩
    ∧ (DB.mk none mt).FindWithQuerySortOne coll qv order outE
        = ⟨DB.mk none mt, some .notConnected, []⟩
    ∧ (DB.mk none mt).FindWithQuerySortAll coll qv order outE
        = ⟨DB.mk none mt, some .notConnected, []⟩
    ∧ (DB.mk none mt).FindWithQuerySortLimitAll coll qv order limit outE
        = ⟨DB.mk none mt, some .notConnected, []⟩
    ∧ (DB.mk none mt).FindWithQueryOne coll qv outE
        = ⟨DB.mk none mt, some .notConnected, []⟩
    ∧ (DB.mk none mt).FindWithQueryAll coll qv outE
        = ⟨DB.mk none mt, some .notConnected, []⟩
    ∧ (DB.mk none mt).FindWithQuerySortLimitOffsetAll coll qv order limit
        offset outE = ⟨DB.mk none mt, some .notConnected, []⟩
    ∧ (DB.mk none mt).FindWithQuerySortLimitOffsetTotalAll coll qv order
        limit offset total countOut outE
        = ⟨DB.mk none mt, (some .notConnected, total), []⟩
    ∧ (DB.mk none mt).Count coll qv countOut
        = ⟨DB.mk none mt, (0, some .notConnected), []⟩
    ∧ (DB.mk none mt).Update coll idV setV outE
        = ⟨DB.mk none mt, some .notConnected, []⟩
    ∧ (DB.mk none mt).UpdateWithQuery coll qv setV outE
        = ⟨DB.mk none mt, some .notConnected, []⟩
    ∧ (DB.mk none mt).UpdateWithQueryAll coll qv setV outE
        = ⟨DB.mk none mt, some .notConnected, []⟩
    ∧ (DB.mk none mt).Upsert coll idV setV outE
        = ⟨DB.mk none mt, some .notConnected, []⟩
    ∧ (DB.mk none mt).UpsertWithQuery coll qv setV outE
        = ⟨DB.mk none mt, some .notConnected, []⟩
    ∧ (DB.mk none mt).UpsertMulti coll ids vs outsU
        = ⟨DB.mk none mt, some .notConnected, []⟩
    ∧ (DB.mk none mt).Remove coll idV outE
        = ⟨DB.mk none mt, some .notConnected, []⟩
    ∧ (DB.mk none mt).RemoveWithQuery coll qv outE
        = ⟨DB.mk none mt, some .notConnected, []⟩
    ∧ (DB.mk none mt).RemoveWithIDs coll idsV outE
        = ⟨DB.mk none mt, some .notConnected, []⟩ :=
  ⟨rfl, rfl, rfl, rfl, rfl, rfl, rfl, rfl, rfl, rfl, rfl, rfl, rfl, rfl,
   rfl, rfl, rfl, rfl, rfl, rfl, rfl, rfl, rfl, rfl, rfl, rfl, rfl, rfl⟩

/-- C10: GetDb builds the zero-valued handle, whose max-time budget is 0,
while NewConnection and NewConnectionWithTimeout initialise the budget to
the 30-second default before dialing; Connect does not touch the budget, so
a GetDb handle that is later connected still has budget 0, and every
read/aggregate operation on such a handle chains a zero max-time bound onto
its request until SetMaxTimeMS replaces the budget. -/
theorem getDb_zero_max_time_budget (dsn : String) (t : Int)
    (dial : Except EngineError Session) (s : Session) (d : Int)
    (coll : String) (q : List (String × Val)) (qv : Val) (stages : List Val)
    (idS : String) (fOut : FindOneOutcome) (order : String)
    (limit offset t0 : Int) (countOut : Int × Option EngineError)
    (outE : Option EngineError) :
    GetDb.maxTimeMS = 0
    ∧ GetDb.sess = none
    ∧ defaultMaxTimeMS = 30 * timeSecond
    ∧ (NewConnection dsn dial).1.maxTimeMS = defaultMaxTimeMS
    ∧ (NewConnectionWithTimeout dsn t dial).1.maxTimeMS = defaultMaxTimeMS
    ∧ (GetDb.Connect dsn (.ok s)).db = DB.mk (some s) 0
    ∧ (DB.mk (some s) 0).SetMaxTimeMS d = DB.mk (some s) d
    ∧ ((DB.mk (some s) 0).Find coll q outE).trace
        = [Request.find coll (.obj (mapCopy q)) none none none (some 0) .all]
    ∧ ((DB.mk (some s) 0).FindAll coll outE).trace
        = [Request.find coll (.obj []) none none none (some 0) .all]
    ∧ ((DB.mk (some s) 0).FindByID coll idS fOut).trace
        = [Request.findId coll idS (some 0)]
    ∧ ((DB.mk (some s) 0).FindWithQuery coll qv outE).trace
        = [Request.find coll qv none none none (some 0) .one]
    ∧ ((DB.mk (some s) 0).FindWithQuerySortOne coll qv order outE).trace
        = [Request.find coll qv (some order) none none (some 0) .one]
    ∧ ((DB.mk (some s) 0).FindWithQuerySortAll coll qv order outE).trace
        = [Request.find coll qv (some order) none none (some 0) .all]
    ∧ ((DB.mk (some s) 0).FindWithQuerySortLimitAll coll qv order limit
        outE).trace
        = [Request.find coll qv (some order) (some limit) none (some 0) .all]
    ∧ ((DB.mk (some s) 0).FindWithQueryOne coll qv outE).trace
        = [Request.find coll qv none none none (some 0) .one]
    ∧ ((DB.mk (some s) 0).FindWithQueryAll coll qv outE).trace
        = [Request.find coll qv none none none (some 0) .all]
    ∧ ((DB.mk (some s) 0).FindWithQuerySortLimitOffsetAll coll qv order limit
        offset outE).trace
        = [Request.find coll qv (some order) (some limit) (some offset)
            (some 0) .all]
    ∧ ((DB.mk (some s) 0).FindWithQuerySortLimitOffsetTotalAll coll qv order
        limit offset (some t0) countOut outE).trace
        = [Request.count coll qv (some 0),
           Request.find coll qv (some order) (some limit) (some offset)
             (some 0) .all]
    ∧ ((DB.mk (some s) 0).Pipe coll stages outE).trace
        = [Request.pipe coll stages true (some 0) .all]
    ∧ ((DB.mk (some s) 0).PipeOne coll stages outE).trace
        = [Request.pipe coll stages true (some 0) .one]
    ∧ ((DB.mk (some s) 0).Count coll qv countOut).trace
        = [Request.count coll qv (some 0)] := by
  refine ⟨rfl, rfl, rfl, ?_, ?_, rfl, rfl, rfl, rfl, rfl, rfl, rfl, rfl,
    rfl, rfl, rfl, rfl, rfl, rfl, rfl, rfl⟩
  · cases dial <;> rfl
  · cases dial <;> rfl

end Mongo
